import Mathlib

/-!
Verification of the trace-observability core (src/tracing) against its
specification.  The Python source is shallowly embedded: dynamic values
(`Any`) become the inductive `Val`, Python dicts become insertion-ordered
association lists, wall-clock and monotonic clock reads become explicit
arguments, and database access becomes an oracle environment.  Fallible
code returns `Except`.
-/

namespace Tracing

/-- Dynamic Python value: None, bool, number (int/float as a rational),
string, list, or dict (insertion-ordered association list). -/
inductive Val where
  | vNone : Val
  | vBool : Bool → Val
  | vNum : ℚ → Val
  | vStr : String → Val
  | vList : List Val → Val
  | vDict : List (String × Val) → Val

mutual

/-- Structural equality on dynamic values (Python `==` restricted to
same-shaped operands, which is all the embedded code compares). -/
def Val.beq : Val → Val → Bool
  | .vNone, .vNone => true
  | .vBool a, .vBool b => a == b
  | .vNum a, .vNum b => a == b
  | .vStr a, .vStr b => a == b
  | .vList a, .vList b => Val.beqList a b
  | .vDict a, .vDict b => Val.beqPairs a b
  | _, _ => false

/-- Elementwise equality of value lists. -/
def Val.beqList : List Val → List Val → Bool
  | [], [] => true
  | a :: as', b :: bs' => Val.beq a b && Val.beqList as' bs'
  | _, _ => false

/-- Elementwise equality of key-value pair lists. -/
def Val.beqPairs : List (String × Val) → List (String × Val) → Bool
  | [], [] => true
  | (ka, va) :: as', (kb, vb) :: bs' => ka == kb && Val.beq va vb && Val.beqPairs as' bs'
  | _, _ => false

end

instance : BEq Val := ⟨Val.beq⟩

/-- Python truthiness: None, False, 0, empty string/list/dict are falsy. -/
def Val.truthy : Val → Bool
  | .vNone => false
  | .vBool b => b
  | .vNum q => q != 0
  | .vStr s => s != ""
  | .vList xs => !xs.isEmpty
  | .vDict m => !m.isEmpty

/-- Truthiness of an optional string (Python `if s:` on `Optional[str]`). -/
def strTruthy : Option String → Bool
  | none => false
  | some s => s != ""

/-- Dict lookup (`d.get(k)`), first matching key. -/
def alGet {α : Type} (m : List (String × α)) (k : String) : Option α :=
  (m.find? (fun p => p.1 == k)).map Prod.snd

/-- Dict lookup with default (`d.get(k, dflt)`). -/
def alGetD {α : Type} (m : List (String × α)) (k : String) (dflt : α) : α :=
  (alGet m k).getD dflt

/-- Dict membership (`k in d`). -/
def alMem {α : Type} (m : List (String × α)) (k : String) : Bool :=
  (alGet m k).isSome

/-- Dict assignment (`d[k] = v`): replaces in place if the key exists,
otherwise appends, matching Python insertion-order semantics. -/
def alSet {α : Type} (m : List (String × α)) (k : String) (v : α) : List (String × α) :=
  if alMem m k then m.map (fun p => if p.1 == k then (k, v) else p)
  else m ++ [(k, v)]

/-- Decision dataclass from src/tracing/context.py: a single decision
recorded by a component. -/
structure Decision where
  decision : String
  what : Val
  why : Val
  confidence : Val
  alternatives_considered : Val
  inputs : Val
  timestamp : String

/-- StageTrace dataclass: trace data for a single pipeline stage. -/
structure StageTrace where
  name : String
  started_at : Option String := none
  completed_at : Option String := none
  duration_seconds : Option ℚ := none
  decisions : List Decision := []
  outputs : List (String × Val) := []
  evidence : List (String × Val) := []
  prompts : List (String × Val) := []
  error : Option String := none

/-- Trace dataclass: full trace for a research run.  Clock fields
`_start_time` and `_stage_start_times` are embedded without the leading
underscore.  Note the source default `iteration_count: int = 1`. -/
structure Trace where
  trace_id : String
  project_id : Option String := none
  project_name : Option String := none
  query : Option String := none
  intent : Option String := none
  domain : Option String := none
  report_type : Option String := none
  research_type : Option String := none
  started_at : Option String := none
  completed_at : Option String := none
  duration_seconds : Option ℚ := none
  status : String := "in_progress"
  stages : List (String × StageTrace) := []
  iterations : List Val := []
  iteration_count : Nat := 1
  quality_gate_failures : Nat := 0
  outputs : List (String × Val) := []
  child_traces : List Val := []
  start_time : ℚ := 0
  stage_start_times : List (String × ℚ) := []

/-- Trace.start_stage: create or reset the named stage with a start
timestamp and capture the monotonic clock.  `now` is the ISO timestamp
read from the wall clock, `mono` the monotonic clock reading. -/
def Trace.start_stage (t : Trace) (stage_name : String) (now : String) (mono : ℚ) : Trace :=
  { t with
    stages := alSet t.stages stage_name { name := stage_name, started_at := some now },
    stage_start_times := alSet t.stage_start_times stage_name mono }

/-- Trace.end_stage: no-op (with a logged warning) when the stage was
never started; otherwise sets the completion timestamp, computes the
duration when a monotonic start was captured, and overwrites outputs and
error when they are supplied truthy (Python `if outputs:` / `if error:`). -/
def Trace.end_stage (t : Trace) (stage_name : String)
    (outputs : Option (List (String × Val))) (error : Option String)
    (now : String) (mono : ℚ) : Trace :=
  match alGet t.stages stage_name with
  | none => t
  | some stage =>
    let stage1 := { stage with completed_at := some now }
    let stage2 :=
      match alGet t.stage_start_times stage_name with
      | some start => { stage1 with duration_seconds := some (mono - start) }
      | none => stage1
    let stage3 :=
      match outputs with
      | some o => if o.isEmpty then stage2 else { stage2 with outputs := o }
      | none => stage2
    let stage4 :=
      match error with
      | some e => if e == "" then stage3 else { stage3 with error := some e }
      | none => stage3
    { t with stages := alSet t.stages stage_name stage4 }

/-- Trace.record: append a Decision to the named stage, auto-creating the
stage (with no start timestamp) if absent.  `now` is the Decision
timestamp assigned at construction. -/
def Trace.record (t : Trace) (stage_name : String) (decision_type : String)
    (data : List (String × Val)) (now : String) : Trace :=
  let stages1 :=
    if alMem t.stages stage_name then t.stages
    else alSet t.stages stage_name { name := stage_name }
  let d : Decision :=
    { decision := decision_type
      what := alGetD data "what" .vNone
      why := alGetD data "why" (.vStr "")
      confidence := alGetD data "confidence" (.vNum 1)
      alternatives_considered := alGetD data "alternatives_considered" (.vList [])
      inputs := alGetD data "inputs" (.vDict [])
      timestamp := now }
  let stages2 :=
    match alGet stages1 stage_name with
    | some stage => alSet stages1 stage_name { stage with decisions := stage.decisions ++ [d] }
    | none => stages1
  { t with stages := stages2 }

/-- Trace.record_evidence: replace the stage's evidence map, auto-creating
the stage if absent. -/
def Trace.record_evidence (t : Trace) (stage_name : String)
    (evidence_data : List (String × Val)) : Trace :=
  let stages1 :=
    if alMem t.stages stage_name then t.stages
    else alSet t.stages stage_name { name := stage_name }
  let stages2 :=
    match alGet stages1 stage_name with
    | some stage => alSet stages1 stage_name { stage with evidence := evidence_data }
    | none => stages1
  { t with stages := stages2 }

/-- Trace.record_prompts: replace the stage's prompt map, auto-creating
the stage if absent. -/
def Trace.record_prompts (t : Trace) (stage_name : String)
    (prompts : List (String × Val)) : Trace :=
  let stages1 :=
    if alMem t.stages stage_name then t.stages
    else alSet t.stages stage_name { name := stage_name }
  let stages2 :=
    match alGet stages1 stage_name with
    | some stage => alSet stages1 stage_name { stage with prompts := prompts }
    | none => stages1
  { t with stages := stages2 }

/-- Iteration pass flag: `iteration_data.get("passed", True)` is falsy. -/
def iterFailed (data : List (String × Val)) : Bool :=
  !(alGetD data "passed" (.vBool true)).truthy

/-- Trace.record_iteration: append the raw record, refresh
`iteration_count` from the list length, and bump the failure counter when
the pass flag is falsy. -/
def Trace.record_iteration (t : Trace) (data : List (String × Val)) : Trace :=
  let iterations1 := t.iterations ++ [.vDict data]
  { t with
    iterations := iterations1,
    iteration_count := iterations1.length,
    quality_gate_failures :=
      if iterFailed data then t.quality_gate_failures + 1 else t.quality_gate_failures }

/-- Trace.set_outputs: replace the trace-level output map. -/
def Trace.set_outputs (t : Trace) (outputs : List (String × Val)) : Trace :=
  { t with outputs := outputs }

/-- Trace.mark_complete: terminal success status plus completion time and
total duration (when a monotonic start was captured, `if self._start_time:`). -/
def Trace.mark_complete (t : Trace) (now : String) (mono : ℚ) : Trace :=
  let t1 := { t with status := "complete", completed_at := some now }
  if t.start_time != 0 then { t1 with duration_seconds := some (mono - t.start_time) } else t1

/-- Trace.mark_failed: terminal failure status; stores the error string
under the reserved output key "error". -/
def Trace.mark_failed (t : Trace) (error : String) (now : String) (mono : ℚ) : Trace :=
  let t1 := { t with status := "failed", completed_at := some now }
  let t2 :=
    if t.start_time != 0 then { t1 with duration_seconds := some (mono - t.start_time) } else t1
  { t2 with outputs := alSet t2.outputs "error" (.vStr error) }

/-- Trace.mark_incomplete: terminal early-end status. -/
def Trace.mark_incomplete (t : Trace) (now : String) (mono : ℚ) : Trace :=
  let t1 := { t with status := "incomplete", completed_at := some now }
  if t.start_time != 0 then { t1 with duration_seconds := some (mono - t.start_time) } else t1

/-- One call of the Trace recording API, with its clock readings made
explicit so sequences of calls can be reasoned about. -/
inductive Op where
  | startStage (name : String) (now : String) (mono : ℚ)
  | endStage (name : String) (outputs : Option (List (String × Val)))
      (error : Option String) (now : String) (mono : ℚ)
  | recDecision (stage : String) (dtype : String) (data : List (String × Val)) (now : String)
  | recEvidence (stage : String) (data : List (String × Val))
  | recPrompts (stage : String) (data : List (String × Val))
  | recIteration (data : List (String × Val))
  | setOutputs (data : List (String × Val))
  | markComplete (now : String) (mono : ℚ)
  | markFailed (error : String) (now : String) (mono : ℚ)
  | markIncomplete (now : String) (mono : ℚ)

/-- Dispatch one recording-API call to the corresponding Trace method. -/
def applyOp (t : Trace) : Op → Trace
  | .startStage name now mono => t.start_stage name now mono
  | .endStage name outputs error now mono => t.end_stage name outputs error now mono
  | .recDecision stage dtype data now => t.record stage dtype data now
  | .recEvidence stage data => t.record_evidence stage data
  | .recPrompts stage data => t.record_prompts stage data
  | .recIteration data => t.record_iteration data
  | .setOutputs data => t.set_outputs data
  | .markComplete now mono => t.mark_complete now mono
  | .markFailed error now mono => t.mark_failed error now mono
  | .markIncomplete now mono => t.mark_incomplete now mono

/-- Apply a sequence of recording-API calls in order. -/
def applyOps (t : Trace) (ops : List Op) : Trace :=
  ops.foldl applyOp t

/-- Freshly constructed trace, `Trace(trace_id=tid)` with dataclass
defaults. -/
def freshTrace (tid : String) : Trace :=
  { trace_id := tid }

/-- Decimal digit character, as produced by zero-padded strftime fields. -/
def digitChar (n : Nat) : Char :=
  Char.ofNat (48 + n % 10)

/-- Two-digit zero-padded decimal rendering (strftime %m %d %H %M %S for
in-range values). -/
def pad2 (n : Nat) : String :=
  String.mk [digitChar (n / 10), digitChar n]

/-- Four-digit zero-padded decimal rendering (strftime %Y for years up to
9999). -/
def pad4 (n : Nat) : String :=
  String.mk [digitChar (n / 1000), digitChar (n / 100), digitChar (n / 10), digitChar n]

/-- Lowercase hexadecimal digit character. -/
def hexChar (n : Nat) : Char :=
  if n % 16 < 10 then Char.ofNat (48 + n % 16) else Char.ofNat (87 + n % 16)

/-- Lowercase hex rendering of a byte sequence (`uuid4().hex`), two
characters per byte. -/
def bytesHexChars : List Nat → List Char
  | [] => []
  | b :: rest => hexChar (b / 16) :: hexChar b :: bytesHexChars rest

/-- Trace identifier generation from TraceContext.start:
`f"trc_{utcnow.strftime('%Y%m%d_%H%M%S')}_{uuid4().hex[:8]}"`, with the
clock reading and the random UUID bytes as explicit inputs. -/
def mkTraceId (y mo d h mi s : Nat) (uuidBytes : List Nat) : String :=
  "trc_" ++ pad4 y ++ pad2 mo ++ pad2 d ++ "_" ++ pad2 h ++ pad2 mi ++ pad2 s ++ "_"
    ++ String.mk ((bytesHexChars uuidBytes).take 8)

/-- Trace construction in TraceContext.start (enabled path): a fresh Trace
carrying the generated identifier, the run metadata, the wall-clock start
timestamp and the captured monotonic start instant. -/
def TraceContext_start (project_id project_name query intent domain report_type
    research_type : Option String) (y mo d h mi s : Nat) (uuidBytes : List Nat)
    (started_at : String) (mono : ℚ) : Trace :=
  { trace_id := mkTraceId y mo d h mi s uuidBytes
    project_id := project_id
    project_name := project_name
    query := query
    intent := intent
    domain := domain
    report_type := report_type
    research_type := research_type
    started_at := some started_at
    start_time := mono }

/-- Trace constructed by `_NoOpTrace.__init__`:
`super().__init__(trace_id="noop", status="disabled")`. -/
def mkNoOpTrace : Trace :=
  { trace_id := "noop", status := "disabled" }

/-- A trace handle as seen by instrumentation call-sites: either a real
Trace or the disabled-tracing `_NoOpTrace` variant (whose inherited state
is carried alongside). -/
inductive AnyTrace where
  | real (t : Trace)
  | noop (t : Trace)

/-- Dispatch of a recording-API call on a trace handle: the `_NoOpTrace`
overrides make every recording method `pass`, so the noop variant is left
untouched. -/
def AnyTrace.applyOp : AnyTrace → Op → AnyTrace
  | .real t, op => .real (Tracing.applyOp t op)
  | .noop t, _ => .noop t

/-- Row returned by `_previous_trace_for_project`. -/
structure PrevRow where
  trace_id : String
  quality_gate_passed : Option Bool := none
  overall_quality_score : Option ℚ := none

/-- Oracle environment for the calibration analyzer: each historical DB
helper of src/tracing/calibration_flags.py becomes a function that may
fail (`Except.error` models the helper raising). -/
structure CalEnv where
  recent_failure_count : Val → Except String Nat
  intent_avg_score : String → Except String (Option ℚ)
  domain_avg_score : String → Except String (Option ℚ)
  overall_avg_score : Except String (Option ℚ)
  previous_trace_for_project : String → String → Except String (Option PrevRow)

/-- Python comparison `v < 2` on a dynamic value: defined for numbers and
booleans (bool is an int in Python), a TypeError for everything else. -/
def valLt2 : Val → Except String Bool
  | .vNum q => .ok (decide (q < 2))
  | .vBool b => .ok (decide ((if b then (1 : ℚ) else 0) < 2))
  | _ => .error "TypeError: unorderable score value"

/-- Rendering of a dynamic value inside an f-string. -/
def valFormat : Val → String
  | .vStr s => s
  | .vNum q => if q.den == 1 then toString q.num else toString q.num ++ "/" ++ toString q.den
  | .vBool b => if b then "True" else "False"
  | .vNone => "None"
  | .vList _ => "[...]"
  | .vDict _ => "\x7b...\x7d"

/-- One-decimal rendering of a non-negative tenth count. -/
def fmt1Nat (m : Nat) : String :=
  toString (m / 10) ++ "." ++ toString (m % 10)

/-- Python `"{:.1f}"` formatting of a quality score. -/
def fmt1 (q : ℚ) : String :=
  let n : ℤ := round (q * 10)
  if n < 0 then "-" ++ fmt1Nat (-n).toNat else fmt1Nat n.toNat

/-- Starting gap list from `qg_outputs.get("gap_principles") or []`: the
stored list itself (aliased, so later appends mutate the trace) when it is
a truthy list, a fresh empty list when missing or falsy.  A truthy
non-list shape is mapped to a type error (such shapes are not exercised by
any theorem below; the pipeline caller catches everything anyway). -/
def gapStart (qgOutputs : List (String × Val)) : (List Val × Bool) ⊕ String :=
  match alGet qgOutputs "gap_principles" with
  | some (.vList xs) => if xs.isEmpty then .inl ([], false) else .inl (xs, true)
  | some v => if v.truthy then .inr "TypeError: gap_principles is not a list" else .inl ([], false)
  | none => .inl ([], false)

/-- Augmentation pass over a list-of-records `principle_scores`: for each
dict item whose score (default 3) is below 2, append its id to the gap
list when truthy and not already present.  A TypeError in the comparison
aborts the pass but keeps the appends made so far. -/
def augScoresList : List Val → List Val → List Val × Option String
  | [], gaps => (gaps, none)
  | item :: rest, gaps =>
    match item with
    | .vDict m =>
      match valLt2 (alGetD m "score" (.vNum 3)) with
      | .error e => (gaps, some e)
      | .ok lt =>
        let pid := alGetD m "id" .vNone
        let gaps1 := if lt && pid.truthy && !(gaps.contains pid) then gaps ++ [pid] else gaps
        augScoresList rest gaps1
    | _ => augScoresList rest gaps

/-- Augmentation pass over a flat-mapping `principle_scores`: for each
entry whose score is below 2, append the key when not already present.
A TypeError in the comparison aborts the pass but keeps prior appends. -/
def augScoresDict : List (String × Val) → List Val → List Val × Option String
  | [], gaps => (gaps, none)
  | (pid, score) :: rest, gaps =>
    match valLt2 score with
    | .error e => (gaps, some e)
    | .ok lt =>
      let gaps1 :=
        if lt && !(gaps.contains (.vStr pid)) then gaps ++ [.vStr pid] else gaps
      augScoresDict rest gaps1

/-- Check 1 (repeated principle failures): per-principle historical lookup,
individually fault-isolated; a count of at least 3 emits a flag. -/
def check1Flags (env : CalEnv) : List Val → List String
  | [] => []
  | pid :: rest =>
    let tailFlags := check1Flags env rest
    match env.recent_failure_count pid with
    | .ok count =>
      if 3 ≤ count then
        ("Principle " ++ valFormat pid ++ " has scored below threshold "
          ++ toString count ++ " times in the last 7 days. Consider reviewing calibration.")
          :: tailFlags
      else tailFlags
    | .error _ => tailFlags

/-- Check 2 (intent quality disparity): fault-isolated pair of lookups; a
disparity above 0.5 emits a flag. -/
def check2Flags (env : CalEnv) : Option String → List String
  | none => []
  | some s =>
    if s == "" then []
    else
      match env.intent_avg_score s, env.overall_avg_score with
      | .ok (some ia), .ok (some oa) =>
        if oa - ia > 1 / 2 then
          [s ++ " intent runs average " ++ fmt1 ia ++ " quality vs " ++ fmt1 oa
            ++ " overall. May need intent-specific tuning."]
        else []
      | _, _ => []

/-- Check 3 (domain quality disparity): same as check 2 for the domain tag. -/
def check3Flags (env : CalEnv) : Option String → List String
  | none => []
  | some s =>
    if s == "" then []
    else
      match env.domain_avg_score s, env.overall_avg_score with
      | .ok (some da), .ok (some oa) =>
        if oa - da > 1 / 2 then
          [s ++ " domain runs average " ++ fmt1 da ++ " quality vs " ++ fmt1 oa ++ " overall."]
        else []
      | _, _ => []

/-- Check 4 (quality gate regression): only when the gate explicitly
failed (`passed is False`) and the trace has a truthy project id and start
time; fault-isolated lookup of the previous complete run. -/
def check4Flags (env : CalEnv) (t : Trace) (qgOutputs : List (String × Val)) : List String :=
  match alGet qgOutputs "passed" with
  | some (.vBool false) =>
    match t.project_id, t.started_at with
    | some pid, some st =>
      if pid == "" || st == "" then []
      else
        match env.previous_trace_for_project pid st with
        | .ok (some prev) =>
          if prev.quality_gate_passed == some true then
            ["Quality regression detected for project "
              ++ (match t.project_name with
                  | some n => if n == "" then pid else n
                  | none => pid)
              ++ ": this run failed quality gate after previous run passed."]
          else []
        | _ => []
    | _, _ => []
  | _ => []

/-- Write-back of the in-place list mutation: when the starting gap list
aliased the stored `qg_outputs["gap_principles"]`, every append performed
on it is visible in the trace afterwards. -/
def writeBackGaps (t : Trace) (qg : StageTrace) (gaps : List Val) : Trace :=
  { t with
    stages := alSet t.stages "quality_gate"
      { qg with outputs := alSet qg.outputs "gap_principles" (.vList gaps) } }

/-- check_calibration_flags of src/tracing/calibration_flags.py: returns
the flag list (or the exception it raises, as `Except.error`) together
with the trace object as it stands after the call — the gap-list aliasing
means the call can leave the trace mutated. -/
def check_calibration_flags (env : CalEnv) (t : Trace) :
    Except String (List String) × Trace :=
  match alGet t.stages "quality_gate" with
  | none => (.ok [], t)
  | some qg =>
    let qgOutputs := qg.outputs
    match gapStart qgOutputs with
    | .inr e => (.error e, t)
    | .inl (gaps0, aliased) =>
      let aug :=
        match alGet qgOutputs "principle_scores" with
        | some (.vList items) => augScoresList items gaps0
        | some (.vDict m) => augScoresDict m gaps0
        | _ => (gaps0, none)
      let t1 := if aliased then writeBackGaps t qg aug.1 else t
      match aug.2 with
      | some e => (.error e, t1)
      | none =>
        (.ok (check1Flags env aug.1 ++ check2Flags env t.intent
          ++ check3Flags env t.domain ++ check4Flags env t qgOutputs), t1)

/-- Oracle environment for TraceContext.finish: the Persistence Writer
calls, the summary-file write and the review-flag update become fallible
oracles; the terminal summary print and the alert-file append only log on
failure and touch neither the result map nor the trace, so they need no
oracle. -/
structure FinishEnv where
  write_trace_file : Trace → Except String String
  write_trace_metadata : Trace → Except String Unit
  write_summary_file : Except String (Option String)
  cal : CalEnv
  set_flagged_for_review : Except String Unit

/-- Result map returned by TraceContext.finish; every key the source can
set is an optional field (absent key = `none`). -/
structure FinishResult where
  saved : Option Bool := none
  reason : Option String := none
  trace_id : Option String := none
  status : Option String := none
  file_path : Option String := none
  file_error : Option String := none
  supabase : Option String := none
  supabase_error : Option String := none
  summary_file : Option String := none
  calibration_flags : Option (List String) := none
  flagged_for_review : Option Bool := none

/-- TraceContext.finish: demote an in-progress trace to incomplete, then
run the file write, the row write, the summary steps and the calibration
analysis, each independently fault-isolated, and clear the current-trace
binding.  Returns the result map, the trace object as it stands after the
call, and the value of the current-trace binding after the call. -/
def TraceContext_finish (env : FinishEnv) (tr : AnyTrace) (now : String) (mono : ℚ) :
    FinishResult × AnyTrace × Option AnyTrace :=
  match tr with
  | .noop t => ({ saved := some false, reason := some "tracing_disabled" }, .noop t, none)
  | .real t =>
    let t1 := if t.status == "in_progress" then t.mark_incomplete now mono else t
    let fileStep :=
      match env.write_trace_file t1 with
      | .ok p => (some p, (none : Option String),
          { t1 with outputs := alSet t1.outputs "trace_file_path" (.vStr p) })
      | .error e => (none, some e, t1)
    let t2 := fileStep.2.2
    let rowStep :=
      match env.write_trace_metadata t2 with
      | .ok _ => ((some "saved" : Option String), (none : Option String))
      | .error e => (none, some e)
    let summaryFile :=
      match env.write_summary_file with
      | .ok (some p) => if p == "" then none else some p
      | _ => none
    let calStep := check_calibration_flags env.cal t2
    let calFields :=
      match calStep.1 with
      | .error _ => ((some ([] : List String)), (none : Option Bool))
      | .ok fs =>
        if fs.isEmpty then (some fs, none)
        else
          (some fs,
            match env.set_flagged_for_review with
            | .ok _ => some true
            | .error _ => none)
    ({ trace_id := some t1.trace_id
       status := some t1.status
       file_path := fileStep.1
       file_error := fileStep.2.1
       supabase := rowStep.1
       supabase_error := rowStep.2
       summary_file := summaryFile
       calibration_flags := calFields.1
       flagged_for_review := calFields.2 },
     .real calStep.2, none)

/-- Denormalized row of the `traces` row store, restricted to the columns
TraceQuery.compare reads. -/
structure TraceRow where
  trace_id : String
  overall_quality_score : Option ℚ := none
  duration_seconds : Option ℚ := none
  synthesis_cost_usd : Option ℚ := none
  gap_principles : Option (List String) := none

/-- Result of TraceQuery.compare. -/
structure CompareResult where
  error : Option String := none
  trace_a : Option String := none
  trace_b : Option String := none
  quality_delta : Option ℚ := none
  duration_delta : Option ℚ := none
  cost_delta : Option ℚ := none
  gaps_a_only : List String := []
  gaps_b_only : List String := []
  gaps_both : List String := []

/-- Delta of two nullable numbers, B minus A, null if either is null. -/
def optDelta (a b : Option ℚ) : Option ℚ :=
  match a, b with
  | some x, some y => some (y - x)
  | _, _ => none

/-- Python `sorted(...)` of a set of strings: lexicographically sorted
list. -/
def sortedStrings (s : Finset String) : List String :=
  s.sort (· ≤ ·)

/-- TraceQuery.compare of src/tracing/query.py: the row store is an
oracle from trace id to row; a missing row yields the error result,
otherwise three B-minus-A deltas and the sorted three-way gap partition. -/
def TraceQuery_compare (db : String → Option TraceRow) (trace_id_a trace_id_b : String) :
    CompareResult :=
  match db trace_id_a, db trace_id_b with
  | some a, some b =>
    let gaps_a := (a.gap_principles.getD []).toFinset
    let gaps_b := (b.gap_principles.getD []).toFinset
    { trace_a := some trace_id_a
      trace_b := some trace_id_b
      quality_delta := optDelta a.overall_quality_score b.overall_quality_score
      duration_delta := optDelta a.duration_seconds b.duration_seconds
      cost_delta := optDelta a.synthesis_cost_usd b.synthesis_cost_usd
      gaps_a_only := sortedStrings (gaps_a \ gaps_b)
      gaps_b_only := sortedStrings (gaps_b \ gaps_a)
      gaps_both := sortedStrings (gaps_a ∩ gaps_b) }
  | _, _ => { error := some "One or both traces not found" }

/-- Iteration payloads of the record_iteration calls in an op sequence. -/
def iterDatas (ops : List Op) : List (List (String × Val)) :=
  ops.filterMap fun op =>
    match op with
    | .recIteration d => some d
    | _ => none

/-- Failure flag of a stored iteration record (always a dict by
construction of record_iteration). -/
def iterValFailed : Val → Bool
  | .vDict d => iterFailed d
  | _ => false

/-- Lowercase hexadecimal character. -/
def isLowerHexChar (c : Char) : Bool :=
  c.isDigit || ((Char.ofNat 97 ≤ c) && (c ≤ Char.ofNat 102))

/-- Identifier format stated by the spec (refinement target, written from
the spec words): `trc_` + 8-digit date + `_` + 6-digit time + `_` +
8 lowercase-hex-character random suffix. -/
def specTraceIdFormat (s : String) : Prop :=
  ∃ d t h : List Char,
    s.data = "trc_".data ++ d ++ ['_'] ++ t ++ ['_'] ++ h ∧
    d.length = 8 ∧ (∀ c ∈ d, c.isDigit) ∧
    t.length = 6 ∧ (∀ c ∈ t, c.isDigit) ∧
    h.length = 8 ∧ (∀ c ∈ h, isLowerHexChar c)

/-- Calibration oracle in which every historical lookup fails (the
database is unreachable). -/
def calEnvDbDown : CalEnv :=
  { recent_failure_count := fun _ => .error "db unavailable"
    intent_avg_score := fun _ => .error "db unavailable"
    domain_avg_score := fun _ => .error "db unavailable"
    overall_avg_score := .error "db unavailable"
    previous_trace_for_project := fun _ _ => .error "db unavailable" }

/-- Trace whose quality-gate stage stores a non-empty gap list and a flat
score map holding one low score for a category not yet in the gap list. -/
def gapAliasTrace : Trace :=
  { freshTrace "trc_gapalias" with
    stages := [("quality_gate",
      { name := "quality_gate"
        outputs := [("gap_principles", .vList [.vStr "META-1"]),
                    ("principle_scores", .vDict [("MR-2", .vNum 1)])] })] }

/-- Trace whose quality-gate stage stores a flat score map holding a
non-numeric score value. -/
def strScoreTrace : Trace :=
  { freshTrace "trc_strscore" with
    stages := [("quality_gate",
      { name := "quality_gate"
        outputs := [("principle_scores", .vDict [("META-3", .vStr "low")])] })] }

/-- Projection observed by the mutation theorems: the quality-gate stage's
stored gap_principles value. -/
def gapListOf (t : Trace) : Option (Option Val) :=
  (alGet t.stages "quality_gate").map fun st => alGet st.outputs "gap_principles"

/-- Trace with one started stage whose outputs were set by a first
end_stage call. -/
def endedOnceTrace : Trace :=
  ((freshTrace "trc_c4").start_stage "s" "ts1" 0).end_stage
    "s" (some [("a", .vNum 1)]) none "ts2" 1

/-- Second end_stage call on the same stage supplying a different output
key. -/
def endedTwiceTrace : Trace :=
  endedOnceTrace.end_stage "s" (some [("b", .vNum 2)]) none "ts3" 2

/-- Row-store content for the comparison witness. -/
def rowA : TraceRow :=
  { trace_id := "trc_a"
    overall_quality_score := some (5 / 2)
    duration_seconds := some 100
    synthesis_cost_usd := none
    gap_principles := some ["META-1", "MR-2"] }

/-- Second row for the comparison witness. -/
def rowB : TraceRow :=
  { trace_id := "trc_b"
    overall_quality_score := some 2
    duration_seconds := some 160
    synthesis_cost_usd := some (3 / 10)
    gap_principles := some ["MR-2", "SRC-9"] }

/-- Two-row store keyed by trace id. -/
def twoRowDb (tid : String) : Option TraceRow :=
  if tid == "trc_a" then some rowA
  else if tid == "trc_b" then some rowB
  else none

/-- Finish oracle whose artifact-file write always fails while the row
write succeeds. -/
def fileFailEnv : FinishEnv :=
  { write_trace_file := fun _ => .error "disk full"
    write_trace_metadata := fun _ => .ok ()
    write_summary_file := .ok none
    cal := calEnvDbDown
    set_flagged_for_review := .ok () }

end Tracing

namespace Tracing

theorem alGet_cons {α : Type} (p : String × α) (rest : List (String × α)) (k : String) :
    alGet (p :: rest) k = if p.1 == k then some p.2 else alGet rest k := by
  by_cases h : p.1 == k <;> simp [alGet, List.find?, h]

theorem alGet_of_not_mem {α : Type} {m : List (String × α)} {k : String}
    (h : ¬ alMem m k = true) : alGet m k = none := by
  cases hg : alGet m k with
  | none => rfl
  | some v => exact absurd (by simp [alMem, hg]) h

theorem alGet_append_single {α : Type} {m : List (String × α)} {k : String} (v : α)
    (h : alGet m k = none) : alGet (m ++ [(k, v)]) k = some v := by
  induction m with
  | nil => simp [alGet_cons]
  | cons p rest ih =>
    rw [List.cons_append, alGet_cons]
    by_cases hp : (p.1 == k) = true
    · rw [alGet_cons, if_pos hp] at h
      exact absurd h (by simp)
    · rw [if_neg hp]
      rw [alGet_cons, if_neg hp] at h
      exact ih h

theorem alGet_map_set {α : Type} {m : List (String × α)} {k : String} (v : α)
    (h : alMem m k = true) :
    alGet (m.map fun p => if p.1 == k then (k, v) else p) k = some v := by
  induction m with
  | nil => simp [alMem, alGet] at h
  | cons p rest ih =>
    rw [List.map_cons]
    by_cases hp : (p.1 == k) = true
    · rw [if_pos hp, alGet_cons]
      simp
    · rw [if_neg hp, alGet_cons, if_neg hp]
      refine ih ?_
      simpa [alMem, alGet_cons, hp] using h

theorem alGet_alSet {α : Type} (m : List (String × α)) (k : String) (v : α) :
    alGet (alSet m k v) k = some v := by
  unfold alSet
  by_cases h : alMem m k = true
  · rw [if_pos h]
    exact alGet_map_set v h
  · rw [if_neg h]
    exact alGet_append_single v (alGet_of_not_mem h)

theorem alGet_alSet_ne {α : Type} (m : List (String × α)) (k k' : String) (v : α)
    (h : (k' == k) = false) : alGet (alSet m k v) k' = alGet m k' := by
  have hkk : k ≠ k' := fun he => by subst he; simp at h
  unfold alSet
  by_cases hm : alMem m k = true
  · rw [if_pos hm]
    clear hm
    induction m with
    | nil => simp [alGet]
    | cons p rest ih =>
      rw [List.map_cons, alGet_cons, alGet_cons]
      by_cases hp : (p.1 == k) = true
      · have hp1 : p.1 = k := by simpa using hp
        rw [if_pos hp]
        have h1 : ((k, v).1 == k') = false := by simpa using hkk
        have h2 : (p.1 == k') = false := by
          rw [hp1]
          simpa using hkk
        rw [h1, h2]
        simpa using ih
      · rw [if_neg hp]
        by_cases hq : (p.1 == k') = true
        · simp [hq]
        · simp only [hq, if_false]
          simpa using ih
  · rw [if_neg hm]
    clear hm
    induction m with
    | nil =>
      simp only [List.nil_append, alGet_cons]
      have hne : ((k, v).1 == k') = false := by simpa using hkk
      simp [hne, alGet]
    | cons p rest ih =>
      rw [List.cons_append, alGet_cons, alGet_cons]
      by_cases hq : (p.1 == k') = true
      · rw [if_pos hq, if_pos hq]
      · rw [if_neg hq, if_neg hq]
        exact ih

theorem end_stage_trace_id (t : Trace) (n : String) (o : Option (List (String × Val)))
    (e : Option String) (now : String) (mono : ℚ) :
    (t.end_stage n o e now mono).trace_id = t.trace_id := by
  unfold Trace.end_stage
  split <;> rfl

theorem applyOp_trace_id (t : Trace) (op : Op) : (applyOp t op).trace_id = t.trace_id := by
  cases op with
  | endStage n o e now mono => exact end_stage_trace_id t n o e now mono
  | markComplete now mono =>
    show (t.mark_complete now mono).trace_id = t.trace_id
    unfold Trace.mark_complete
    split <;> rfl
  | markFailed e now mono =>
    show (t.mark_failed e now mono).trace_id = t.trace_id
    unfold Trace.mark_failed
    split <;> rfl
  | markIncomplete now mono =>
    show (t.mark_incomplete now mono).trace_id = t.trace_id
    unfold Trace.mark_incomplete
    split <;> rfl
  | _ => rfl

theorem applyOps_trace_id (ops : List Op) (t : Trace) :
    (applyOps t ops).trace_id = t.trace_id := by
  induction ops generalizing t with
  | nil => rfl
  | cons op rest ih =>
    show (applyOps (applyOp t op) rest).trace_id = t.trace_id
    rw [ih, applyOp_trace_id]

end Tracing

namespace Tracing

/-- C6: calling end_stage with a stage name that was never started (and
never auto-created) leaves the trace entirely unchanged — in particular
the stages mapping — does not raise, and creates no phantom completed
stage. -/
theorem spec_C6_end_stage_unstarted (t : Trace) (name : String)
    (outputs : Option (List (String × Val))) (error : Option String) (now : String) (mono : ℚ)
    (h : alGet t.stages name = none) :
    t.end_stage name outputs error now mono = t := by
  unfold Trace.end_stage
  rw [h]

/-- Witness for C6 at a fresh trace and the stage name "collection". -/
theorem spec_C6_witness :
    alGet (freshTrace "trc_w6").stages "collection" = none ∧
    (freshTrace "trc_w6").end_stage "collection" none none "ts" 0 = freshTrace "trc_w6" :=
  ⟨rfl, spec_C6_end_stage_unstarted (freshTrace "trc_w6") "collection" none none "ts" 0 rfl⟩

/-- C4 counterexample: end_stage does not merge outputs.  After a first
end_stage stored key "a", a second end_stage supplying only key "b"
discards "a" — the pre-existing key is not preserved, so the claim as
stated is false. -/
theorem spec_C4_counterexample :
    ((alGet endedOnceTrace.stages "s").map fun st => alGet st.outputs "a")
      = some (some (.vNum 1)) ∧
    ((alGet endedTwiceTrace.stages "s").map fun st => alGet st.outputs "a")
      = some none :=
  ⟨rfl, rfl⟩

/-- C4 amended: for a previously started (or present) stage, end_stage
sets the completion timestamp, computes the duration from the monotonic
clock captured at start when one was captured, REPLACES the stage's output
map with the supplied outputs when they are non-empty (pre-existing output
keys are discarded; an empty or absent outputs map leaves the outputs
unchanged), and stores the supplied error string when it is non-empty. -/
theorem spec_C4_amended (t : Trace) (name : String) (st : StageTrace)
    (outputs : Option (List (String × Val))) (error : Option String) (now : String) (mono : ℚ)
    (h : alGet t.stages name = some st) :
    alGet (t.end_stage name outputs error now mono).stages name = some
      { st with
        completed_at := some now
        duration_seconds :=
          match alGet t.stage_start_times name with
          | some start => some (mono - start)
          | none => st.duration_seconds
        outputs :=
          match outputs with
          | some o => if o.isEmpty then st.outputs else o
          | none => st.outputs
        error :=
          match error with
          | some e => if e == "" then st.error else some e
          | none => st.error } := by
  unfold Trace.end_stage
  rw [h]
  rcases outputs with _ | o <;> rcases error with _ | e <;>
    cases hs : alGet t.stage_start_times name <;> simp only [hs] <;>
    first
    | exact alGet_alSet _ _ _
    | (split <;>
        first
        | exact alGet_alSet _ _ _
        | (split <;> exact alGet_alSet _ _ _))

/-- Witness for C4 at a trace with one ended stage, replacing outputs. -/
theorem spec_C4_witness :
    alGet endedOnceTrace.stages "s" = some
      { name := "s", started_at := some "ts1", completed_at := some "ts2"
        duration_seconds := some (1 - 0), outputs := [("a", .vNum 1)] } ∧
    alGet endedTwiceTrace.stages "s" = some
      { name := "s", started_at := some "ts1", completed_at := some "ts3"
        duration_seconds := some (2 - 0), outputs := [("b", .vNum 2)] } :=
  ⟨rfl,
    spec_C4_amended endedOnceTrace "s"
      { name := "s", started_at := some "ts1", completed_at := some "ts2"
        duration_seconds := some (1 - 0), outputs := [("a", .vNum 1)] }
      (some [("b", .vNum 2)]) none "ts3" 2 rfl⟩

end Tracing

namespace Tracing

theorem record_auto_create (t : Trace) (name dtype : String)
    (data : List (String × Val)) (now : String) (h : alGet t.stages name = none) :
    alGet (t.record name dtype data now).stages name = some
      { name := name
        decisions := [{ decision := dtype
                        what := alGetD data "what" .vNone
                        why := alGetD data "why" (.vStr "")
                        confidence := alGetD data "confidence" (.vNum 1)
                        alternatives_considered := alGetD data "alternatives_considered" (.vList [])
                        inputs := alGetD data "inputs" (.vDict [])
                        timestamp := now }] } := by
  have hm : alMem t.stages name = false := by simp [alMem, h]
  unfold Trace.record
  simp only [hm, Bool.false_eq_true, if_false,
    alGet_alSet t.stages name { name := name }]
  exact alGet_alSet _ _ _

end Tracing

namespace Tracing

theorem record_evidence_auto_create (t : Trace) (name : String)
    (edata : List (String × Val)) (h : alGet t.stages name = none) :
    alGet (t.record_evidence name edata).stages name = some
      { name := name, evidence := edata } := by
  have hm : alMem t.stages name = false := by simp [alMem, h]
  unfold Trace.record_evidence
  simp only [hm, Bool.false_eq_true, if_false,
    alGet_alSet t.stages name { name := name }]
  exact alGet_alSet _ _ _

theorem record_prompts_auto_create (t : Trace) (name : String)
    (pdata : List (String × Val)) (h : alGet t.stages name = none) :
    alGet (t.record_prompts name pdata).stages name = some
      { name := name, prompts := pdata } := by
  have hm : alMem t.stages name = false := by simp [alMem, h]
  unfold Trace.record_prompts
  simp only [hm, Bool.false_eq_true, if_false,
    alGet_alSet t.stages name { name := name }]
  exact alGet_alSet _ _ _

theorem record_stage_start_times (t : Trace) (name dtype : String)
    (data : List (String × Val)) (now : String) :
    (t.record name dtype data now).stage_start_times = t.stage_start_times := rfl

/-- C10: a stage auto-created by record (or record_evidence /
record_prompts) has no start timestamp and no captured monotonic start
instant; end_stage on such a stage then sets its completion timestamp,
does not raise, and leaves duration_seconds as null since no monotonic
start was captured. -/
theorem spec_C10_auto_created_stage (t : Trace) (name dtype : String)
    (data edata pdata : List (String × Val)) (now now2 : String) (mono2 : ℚ)
    (h : alGet t.stages name = none) (h2 : alGet t.stage_start_times name = none) :
    ((alGet (t.record name dtype data now).stages name).map StageTrace.started_at
        = some none) ∧
    ((alGet (t.record_evidence name edata).stages name).map StageTrace.started_at
        = some none) ∧
    ((alGet (t.record_prompts name pdata).stages name).map StageTrace.started_at
        = some none) ∧
    alGet (t.record name dtype data now).stage_start_times name = none ∧
    ((alGet ((t.record name dtype data now).end_stage name none none now2 mono2).stages
        name).map fun st => (st.completed_at, st.duration_seconds))
      = some (some now2, none) := by
  refine ⟨?_, ?_, ?_, ?_, ?_⟩
  · rw [record_auto_create t name dtype data now h]
    rfl
  · rw [record_evidence_auto_create t name edata h]
    rfl
  · rw [record_prompts_auto_create t name pdata h]
    rfl
  · rw [record_stage_start_times]
    exact h2
  · unfold Trace.end_stage
    rw [record_auto_create t name dtype data now h, record_stage_start_times, h2]
    rw [alGet_alSet]
    rfl

/-- Witness for C10 at a fresh trace and the stage name "synthesis". -/
theorem spec_C10_witness :
    alGet (freshTrace "trc_w10").stages "synthesis" = none ∧
    alGet (freshTrace "trc_w10").stage_start_times "synthesis" = none ∧
    ((alGet ((freshTrace "trc_w10").record "synthesis" "model_chosen"
        [("what", .vStr "m1")] "ts1").stages "synthesis").map StageTrace.started_at
      = some none) :=
  ⟨rfl, rfl,
    (spec_C10_auto_created_stage (freshTrace "trc_w10") "synthesis" "model_chosen"
      [("what", .vStr "m1")] [] [] "ts1" "ts2" 5 rfl rfl).1⟩

end Tracing

namespace Tracing

theorem iterDatas_cons (op : Op) (rest : List Op) :
    iterDatas (op :: rest) = iterDatas [op] ++ iterDatas rest := by
  cases op <;> simp [iterDatas, List.filterMap_cons]

theorem applyOp_iterations (t : Trace) (op : Op) :
    (applyOp t op).iterations = t.iterations ++ (iterDatas [op]).map Val.vDict := by
  cases op with
  | endStage n o e now mono =>
    simp only [applyOp]
    unfold Trace.end_stage
    split <;> simp [iterDatas]
  | recIteration d => simp [applyOp, Trace.record_iteration, iterDatas]
  | markComplete now mono =>
    simp only [applyOp]
    unfold Trace.mark_complete
    split <;> simp [iterDatas]
  | markFailed e now mono =>
    simp only [applyOp]
    unfold Trace.mark_failed
    split <;> simp [iterDatas]
  | markIncomplete now mono =>
    simp only [applyOp]
    unfold Trace.mark_incomplete
    split <;> simp [iterDatas]
  | _ => simp [applyOp, Trace.start_stage, Trace.record, Trace.record_evidence,
      Trace.record_prompts, Trace.set_outputs, iterDatas]

theorem applyOps_iterations (ops : List Op) (t : Trace) :
    (applyOps t ops).iterations = t.iterations ++ (iterDatas ops).map Val.vDict := by
  induction ops generalizing t with
  | nil => simp [applyOps, iterDatas]
  | cons op rest ih =>
    show (applyOps (applyOp t op) rest).iterations = _
    rw [ih, applyOp_iterations, iterDatas_cons op rest, List.map_append, List.append_assoc]

theorem applyOp_iter_inv (t : Trace) (op : Op)
    (h1 : t.iteration_count = max 1 t.iterations.length)
    (h2 : t.quality_gate_failures = (t.iterations.filter iterValFailed).length) :
    (applyOp t op).iteration_count = max 1 (applyOp t op).iterations.length ∧
    (applyOp t op).quality_gate_failures
      = ((applyOp t op).iterations.filter iterValFailed).length := by
  cases op with
  | endStage n o e now mono =>
    simp only [applyOp]
    unfold Trace.end_stage
    split <;> exact ⟨h1, h2⟩
  | recIteration d =>
    simp only [applyOp]
    unfold Trace.record_iteration
    constructor
    · show (t.iterations ++ [Val.vDict d]).length
        = max 1 (t.iterations ++ [Val.vDict d]).length
      simp only [List.length_append, List.length_singleton]
      omega
    · show (if iterFailed d then t.quality_gate_failures + 1 else t.quality_gate_failures)
        = ((t.iterations ++ [Val.vDict d]).filter iterValFailed).length
      rw [List.filter_append, List.length_append, ← h2]
      cases hf : iterFailed d <;>
        simp [List.filter, iterValFailed, hf]
  | markComplete now mono =>
    simp only [applyOp]
    unfold Trace.mark_complete
    split <;> exact ⟨h1, h2⟩
  | markFailed e now mono =>
    simp only [applyOp]
    unfold Trace.mark_failed
    split <;> exact ⟨h1, h2⟩
  | markIncomplete now mono =>
    simp only [applyOp]
    unfold Trace.mark_incomplete
    split <;> exact ⟨h1, h2⟩
  | _ => exact ⟨h1, h2⟩

theorem applyOps_iter_inv (ops : List Op) (t : Trace)
    (h1 : t.iteration_count = max 1 t.iterations.length)
    (h2 : t.quality_gate_failures = (t.iterations.filter iterValFailed).length) :
    (applyOps t ops).iteration_count = max 1 (applyOps t ops).iterations.length ∧
    (applyOps t ops).quality_gate_failures
      = ((applyOps t ops).iterations.filter iterValFailed).length := by
  induction ops generalizing t with
  | nil => exact ⟨h1, h2⟩
  | cons op rest ih =>
    have step := applyOp_iter_inv t op h1 h2
    exact ih (applyOp t op) step.1 step.2

/-- C1 counterexample: on a freshly constructed trace with zero
record_iteration calls, iteration_count is 1 while the iterations list is
empty, so iteration_count does not equal the length of the iterations
list as the claim states. -/
theorem spec_C1_counterexample :
    ¬ (freshTrace "trc_fresh").iteration_count
        = (freshTrace "trc_fresh").iterations.length := by
  decide

/-- C1 amended: after every sequence of recording-API operations on a
freshly constructed trace, iteration_count equals max 1 (length of the
iterations list) — the dataclass default is 1, so it equals the number of
record_iteration calls once at least one occurred, but is 1 (not 0) on a
trace with none — the iterations list collects exactly the
record_iteration payloads, failure_count equals the number of
record_iteration calls whose pass flag was falsy, and failure_count never
exceeds iteration_count. -/
theorem spec_C1_amended (tid : String) (ops : List Op) :
    (applyOps (freshTrace tid) ops).iterations.length = (iterDatas ops).length ∧
    (applyOps (freshTrace tid) ops).iteration_count = max 1 (iterDatas ops).length ∧
    (applyOps (freshTrace tid) ops).quality_gate_failures
      = ((iterDatas ops).filter iterFailed).length ∧
    (applyOps (freshTrace tid) ops).quality_gate_failures
      ≤ (applyOps (freshTrace tid) ops).iteration_count := by
  have hiter := applyOps_iterations ops (freshTrace tid)
  have hinv := applyOps_iter_inv ops (freshTrace tid) rfl rfl
  have hlen : (applyOps (freshTrace tid) ops).iterations.length = (iterDatas ops).length := by
    rw [hiter]
    show ([] ++ (iterDatas ops).map Val.vDict).length = _
    simp
  refine ⟨hlen, ?_, ?_, ?_⟩
  · rw [hinv.1, hlen]
  · rw [hinv.2, hiter]
    show ((([] : List Val) ++ (iterDatas ops).map Val.vDict).filter iterValFailed).length = _
    rw [List.nil_append, List.filter_map, List.length_map]
    rfl
  · rw [hinv.2, hinv.1]
    have hf := List.length_filter_le iterValFailed (applyOps (freshTrace tid) ops).iterations
    omega

end Tracing

namespace Tracing

/-- C2: check_calibration_flags CAN mutate the trace.  On a trace whose
quality-gate outputs hold a non-empty gap_principles list and a flat score
map with a low score for a new category, the call appends that category to
the trace's stored gap_principles list (the local variable aliases the
stored list), so the trace after the call differs from the trace before. -/
theorem spec_C2_mutates_trace :
    gapListOf gapAliasTrace = some (some (.vList [.vStr "META-1"])) ∧
    gapListOf (check_calibration_flags calEnvDbDown gapAliasTrace).2
      = some (some (.vList [.vStr "META-1", .vStr "MR-2"])) ∧
    (check_calibration_flags calEnvDbDown gapAliasTrace).2 ≠ gapAliasTrace := by
  refine ⟨rfl, rfl, ?_⟩
  intro h
  have hL : gapListOf (check_calibration_flags calEnvDbDown gapAliasTrace).2
      = some (some (.vList [.vStr "META-1", .vStr "MR-2"])) := rfl
  rw [h] at hL
  have hR : gapListOf gapAliasTrace = some (some (.vList [.vStr "META-1"])) := rfl
  rw [hR] at hL
  simp at hL

/-- C3: check_calibration_flags CAN raise.  On a trace whose quality-gate
per-category scores arrive as a flat mapping with a non-numeric score
value, the comparison of that value against the threshold 2 raises a
TypeError which is not caught (only the historical lookups are wrapped),
so the function propagates an exception instead of returning flags. -/
theorem spec_C3_raises_on_non_numeric_score :
    (check_calibration_flags calEnvDbDown strScoreTrace).1
      = .error "TypeError: unorderable score value" := rfl

/-- C8: on the no-op trace variant every recording call leaves its state
unchanged, and finish on it returns a not-saved result (saved = false,
reason "tracing_disabled") containing no artifact path, while clearing the
current binding. -/
theorem spec_C8_noop_trace (t : Trace) (op : Op) (env : FinishEnv) (now : String) (mono : ℚ) :
    AnyTrace.applyOp (.noop t) op = .noop t ∧
    (TraceContext_finish env (.noop t) now mono).1.saved = some false ∧
    (TraceContext_finish env (.noop t) now mono).1.reason = some "tracing_disabled" ∧
    (TraceContext_finish env (.noop t) now mono).1.file_path = none ∧
    (TraceContext_finish env (.noop t) now mono).1.trace_id = none ∧
    (TraceContext_finish env (.noop t) now mono).2.1 = .noop t ∧
    (TraceContext_finish env (.noop t) now mono).2.2 = none :=
  ⟨rfl, rfl, rfl, rfl, rfl, rfl, rfl⟩

end Tracing

namespace Tracing

/-- C7: for rows a and b both present in the store with non-null quality
scores, compare(b, a) negates every delta of compare(a, b) (quality,
duration, cost — the latter two also when null), the a-only and b-only gap
sets swap, and the both set is identical. -/
theorem spec_C7_compare_antisymmetric (db : String → Option TraceRow) (ida idb : String)
    (a b : TraceRow) (ha : db ida = some a) (hb : db idb = some b)
    (qa qb : ℚ) (hqa : a.overall_quality_score = some qa)
    (hqb : b.overall_quality_score = some qb) :
    (TraceQuery_compare db idb ida).quality_delta
        = Option.map Neg.neg (TraceQuery_compare db ida idb).quality_delta ∧
    (TraceQuery_compare db idb ida).duration_delta
        = Option.map Neg.neg (TraceQuery_compare db ida idb).duration_delta ∧
    (TraceQuery_compare db idb ida).cost_delta
        = Option.map Neg.neg (TraceQuery_compare db ida idb).cost_delta ∧
    (TraceQuery_compare db idb ida).gaps_a_only = (TraceQuery_compare db ida idb).gaps_b_only ∧
    (TraceQuery_compare db idb ida).gaps_b_only = (TraceQuery_compare db ida idb).gaps_a_only ∧
    (TraceQuery_compare db idb ida).gaps_both = (TraceQuery_compare db ida idb).gaps_both := by
  unfold TraceQuery_compare
  rw [ha, hb]
  refine ⟨?_, ?_, ?_, rfl, rfl, ?_⟩
  · show optDelta b.overall_quality_score a.overall_quality_score
      = Option.map Neg.neg (optDelta a.overall_quality_score b.overall_quality_score)
    rw [hqa, hqb]
    simp [optDelta, neg_sub]
  · show optDelta b.duration_seconds a.duration_seconds
      = Option.map Neg.neg (optDelta a.duration_seconds b.duration_seconds)
    cases b.duration_seconds <;> cases a.duration_seconds <;> simp [optDelta, neg_sub]
  · show optDelta b.synthesis_cost_usd a.synthesis_cost_usd
      = Option.map Neg.neg (optDelta a.synthesis_cost_usd b.synthesis_cost_usd)
    cases b.synthesis_cost_usd <;> cases a.synthesis_cost_usd <;> simp [optDelta, neg_sub]
  · show sortedStrings ((b.gap_principles.getD []).toFinset ∩ (a.gap_principles.getD []).toFinset)
      = sortedStrings ((a.gap_principles.getD []).toFinset ∩ (b.gap_principles.getD []).toFinset)
    rw [Finset.inter_comm]

/-- Witness for C7 at a concrete two-row store. -/
theorem spec_C7_witness :
    twoRowDb "trc_a" = some rowA ∧ twoRowDb "trc_b" = some rowB ∧
    rowA.overall_quality_score = some (5 / 2) ∧
    rowB.overall_quality_score = some 2 ∧
    (TraceQuery_compare twoRowDb "trc_b" "trc_a").quality_delta
      = Option.map Neg.neg (TraceQuery_compare twoRowDb "trc_a" "trc_b").quality_delta :=
  ⟨rfl, rfl, rfl, rfl,
    (spec_C7_compare_antisymmetric twoRowDb "trc_a" "trc_b" rowA rowB rfl rfl
      (5 / 2) 2 rfl rfl).1⟩

end Tracing

namespace Tracing

theorem mark_incomplete_trace_id (t : Trace) (now : String) (mono : ℚ) :
    (t.mark_incomplete now mono).trace_id = t.trace_id := by
  unfold Trace.mark_incomplete
  split <;> rfl

/-- C5: in TraceContext.finish the artifact-file write and the row-store
write are invoked independently.  When the file write throws, the failure
is recorded as the file_error field (and no file_path is set), the row
write is still attempted on the same trace and its outcome is recorded as
supabase or supabase_error, the current-trace binding is cleared, and the
result map carries the trace identifier and the final status. -/
theorem spec_C5_finish_file_write_fails (env : FinishEnv) (t t1 : Trace)
    (now : String) (mono : ℚ) (e : String)
    (ht1 : t1 = if t.status == "in_progress" then t.mark_incomplete now mono else t)
    (hfile : env.write_trace_file t1 = .error e) :
    (TraceContext_finish env (.real t) now mono).1.file_error = some e ∧
    (TraceContext_finish env (.real t) now mono).1.file_path = none ∧
    (∀ u, env.write_trace_metadata t1 = .ok u →
      (TraceContext_finish env (.real t) now mono).1.supabase = some "saved") ∧
    (∀ e2, env.write_trace_metadata t1 = .error e2 →
      (TraceContext_finish env (.real t) now mono).1.supabase_error = some e2) ∧
    (TraceContext_finish env (.real t) now mono).2.2 = none ∧
    (TraceContext_finish env (.real t) now mono).1.trace_id = some t.trace_id ∧
    (TraceContext_finish env (.real t) now mono).1.status = some t1.status := by
  have htid : t1.trace_id = t.trace_id := by
    rw [ht1]
    split
    · exact mark_incomplete_trace_id t now mono
    · rfl
  simp only [TraceContext_finish, ← ht1, hfile]
  refine ⟨trivial, trivial, ?_, ?_, trivial, ?_, trivial⟩
  · intro u hm
    simp only [hm]
  · intro e2 hm
    simp only [hm]
  · rw [htid]

/-- Witness for C5: failing file write, succeeding row write, fresh
trace. -/
theorem spec_C5_witness :
    ((if (freshTrace "trc_w5").status == "in_progress"
        then (freshTrace "trc_w5").mark_incomplete "ts" 3
        else freshTrace "trc_w5")
      = (freshTrace "trc_w5").mark_incomplete "ts" 3) ∧
    fileFailEnv.write_trace_file ((freshTrace "trc_w5").mark_incomplete "ts" 3)
      = .error "disk full" ∧
    (TraceContext_finish fileFailEnv (.real (freshTrace "trc_w5")) "ts" 3).1.file_error
      = some "disk full" :=
  ⟨rfl, rfl,
    (spec_C5_finish_file_write_fails fileFailEnv (freshTrace "trc_w5")
      ((freshTrace "trc_w5").mark_incomplete "ts" 3) "ts" 3 "disk full" rfl rfl).1⟩

end Tracing

namespace Tracing

theorem digitChar_isDigit (n : Nat) : (digitChar n).isDigit = true := by
  unfold digitChar
  have h : n % 10 < 10 := Nat.mod_lt _ (by norm_num)
  revert h
  generalize n % 10 = k
  intro h
  interval_cases k <;> decide

theorem hexChar_isLowerHex (n : Nat) : isLowerHexChar (hexChar n) = true := by
  unfold hexChar
  have h : n % 16 < 16 := Nat.mod_lt _ (by norm_num)
  revert h
  generalize n % 16 = k
  intro h
  interval_cases k <;> decide

theorem length_bytesHexChars (l : List Nat) : (bytesHexChars l).length = 2 * l.length := by
  induction l with
  | nil => rfl
  | cons b rest ih =>
    show (bytesHexChars rest).length + 1 + 1 = 2 * (rest.length + 1)
    omega

theorem mem_bytesHexChars (l : List Nat) (c : Char) (hc : c ∈ bytesHexChars l) :
    isLowerHexChar c = true := by
  induction l with
  | nil => simp [bytesHexChars] at hc
  | cons b rest ih =>
    rcases hc with _ | ⟨_, hc2⟩
    · exact hexChar_isLowerHex (b / 16)
    · rcases hc2 with _ | ⟨_, hc3⟩
      · exact hexChar_isLowerHex b
      · exact ih hc3

theorem pad4_digits (n : Nat) (c : Char) (hc : c ∈ (pad4 n).data) : c.isDigit = true := by
  have hc2 : c ∈ [digitChar (n / 1000), digitChar (n / 100), digitChar (n / 10), digitChar n] := hc
  simp only [List.mem_cons, List.not_mem_nil, or_false] at hc2
  rcases hc2 with rfl | rfl | rfl | rfl <;> exact digitChar_isDigit _

theorem pad2_digits (n : Nat) (c : Char) (hc : c ∈ (pad2 n).data) : c.isDigit = true := by
  have hc2 : c ∈ [digitChar (n / 10), digitChar n] := hc
  simp only [List.mem_cons, List.not_mem_nil, or_false] at hc2
  rcases hc2 with rfl | rfl <;> exact digitChar_isDigit _

/-- C9: the identifier generated by TraceContext.start matches the spec
format trc_ + 8-digit date + underscore + 6-digit time + underscore +
8 lowercase-hex characters, it is the trace_id assigned at creation, and
no sequence of recording-API operations ever changes it. -/
theorem spec_C9_trace_id_format (y mo d h mi s : Nat) (uuidBytes : List Nat)
    (hy : y ≤ 9999) (hmo : mo ≤ 12) (hd : d ≤ 31) (hh : h ≤ 23) (hmi : mi ≤ 59)
    (hs : s ≤ 59) (hlen : uuidBytes.length = 16)
    (pid pname q intent dom rt rtype : Option String) (sa : String) (mono : ℚ) :
    specTraceIdFormat (mkTraceId y mo d h mi s uuidBytes) ∧
    (TraceContext_start pid pname q intent dom rt rtype
        y mo d h mi s uuidBytes sa mono).trace_id = mkTraceId y mo d h mi s uuidBytes ∧
    ∀ ops : List Op,
      (applyOps (TraceContext_start pid pname q intent dom rt rtype
          y mo d h mi s uuidBytes sa mono) ops).trace_id
        = mkTraceId y mo d h mi s uuidBytes := by
  refine ⟨?_, rfl, ?_⟩
  · refine ⟨(pad4 y).data ++ (pad2 mo).data ++ (pad2 d).data,
      (pad2 h).data ++ (pad2 mi).data ++ (pad2 s).data,
      (bytesHexChars uuidBytes).take 8, ?_, ?_, ?_, ?_, ?_, ?_, ?_⟩
    · simp [mkTraceId, String.data_append]
    · simp [pad4, pad2]
    · intro c hc
      simp only [List.mem_append] at hc
      rcases hc with (hc | hc) | hc
      · exact pad4_digits y c hc
      · exact pad2_digits mo c hc
      · exact pad2_digits d c hc
    · simp [pad2]
    · intro c hc
      simp only [List.mem_append] at hc
      rcases hc with (hc | hc) | hc
      · exact pad2_digits h c hc
      · exact pad2_digits mi c hc
      · exact pad2_digits s c hc
    · rw [List.length_take, length_bytesHexChars, hlen]
      decide
    · intro c hc
      exact mem_bytesHexChars uuidBytes c (List.mem_of_mem_take hc)
  · intro ops
    rw [applyOps_trace_id]
    rfl

/-- Witness for C9 at a concrete clock reading and UUID byte string. -/
theorem spec_C9_witness :
    specTraceIdFormat (mkTraceId 2026 10 12 14 30 5
      [18, 52, 86, 120, 154, 188, 222, 240, 1, 35, 69, 103, 137, 171, 205, 239]) :=
  (spec_C9_trace_id_format 2026 10 12 14 30 5
    [18, 52, 86, 120, 154, 188, 222, 240, 1, 35, 69, 103, 137, 171, 205, 239]
    (by norm_num) (by norm_num) (by norm_num) (by norm_num) (by norm_num) (by norm_num)
    rfl none none none none none none none "ts" 0).1

end Tracing
